import Mathlib

/-!
Verification development for the deep-research-ai-agent repository.

The repository runs a four-stage research pipeline (`src/research_agent.py`),
logs lifecycle events through a process-wide logger (`src/progress.py`), and
compiles a report from five concurrently generated sections
(`src/report_generator.py`).

Shallow embedding conventions:
* The two external capabilities are modelled as oracles: the inference
  capability (`gemini_client.invoke`) as `GeminiOracle : String → Except String
  String` (the `.error` payload is Python's `str(e)` for the raised exception),
  and the search capability (`tavily_client.search`) as `TavilyOracle`.
* Every pipeline stage returns the updated `ResearchState` together with the
  `ProgressEvent`s it appended (in append order) and the external calls it
  issued (`ExtCall`), so that "emits", "appends" and "invokes" are observable.
* `ProgressEvent.timestamp` and `meta` are omitted: no claim under
  consideration refers to them, and the timestamp is a wall-clock read.
* Wall-clock reads inside the report compiler (`datetime.now()`,
  `report_generator.py` line 247) are modelled as an explicit `now : String`
  argument, because they are an input the code reads on each invocation.
-/

/-- One lifecycle record appended by `ProgressLogger.emit` (`src/progress.py`
lines 9-33).  `timestamp` and `meta` are omitted (see module docstring). -/
structure ProgressEvent where
  component : String
  action : String
  status : String
  message : String
  deriving DecidableEq

/-- One processed search document, as built by `web_researcher`
(`src/research_agent.py` lines 115-121).  Those dicts always carry exactly the
four keys `title`, `url`, `content`, `source` (possibly empty strings), which
is why the fields are plain strings; `.get(key, default)` calls made on such
dicts downstream never fall back to their defaults, and each such call is
noted where it is embedded. -/
structure Doc where
  title : String
  url : String
  content : String
  source : String
  deriving DecidableEq

/-- One raw entry of the external search response (`search_response["results"]`);
the keys may be absent, hence `Option` fields (`result.get(...)` at
`src/research_agent.py` lines 117-120). -/
structure RawResult where
  title : Option String
  url : Option String
  content : Option String
  source : Option String
  deriving DecidableEq

/-- The external search response: `results := none` models a response dict
without a `"results"` key (`if "results" in search_response`, line 114). -/
structure SearchResponse where
  results : Option (List RawResult)
  deriving DecidableEq

/-- `ResearchState` (`src/research_agent.py` lines 36-44). -/
structure ResearchState where
  query : String
  research_topic : String := ""
  search_results : List Doc := []
  analysis : String := ""
  report : String := ""
  status : String := "initialized"
  error : Option String := none
  deriving DecidableEq

/-- An external-capability call issued by a stage. -/
inductive ExtCall where
  | geminiInvoke (prompt : String)
  | tavilySearch (query : String) (maxResults : Nat)
  deriving DecidableEq

/-- Result of running one stage (or the whole pipeline): the new state, the
events appended to the progress log in order, and the external calls issued. -/
structure StageOut where
  state : ResearchState
  events : List ProgressEvent
  calls : List ExtCall
  deriving DecidableEq

/-- The inference capability: prompt ↦ response text, or the exception text. -/
abbrev GeminiOracle := String → Except String String

/-- The search capability: (query, max_results) ↦ response, or exception text. -/
abbrev TavilyOracle := String → Nat → Except String SearchResponse

/-- Prompt built by `query_analyzer` (`src/research_agent.py` lines 60-81). -/
def queryAnalyzerPrompt (query : String) : String :=
  "You are a senior research strategist. Analyze the user's query and produce\nan action-ready brief to drive a high‑quality web research and reporting workflow.\n\nUSER QUERY: "
  ++ query
  ++ "\n\nDELIVERABLE (concise, markdown):\n### Refined Search Terms (3–6)\n- terms…\n\n### Research Focus Areas (3–5)\n- focus…\n\n### Key Questions to Answer (4–6)\n- question…\n\n### Evidence To Prioritize\n- data points, benchmarks, real examples, recent updates (≤12 months) where possible\n\nCONSTRAINTS:\n- Professional, precise tone. No fluff. No speculation.\n- Prefer recent, credible sources; note if the topic lacks fresh evidence.\n"

/-- `content_summary` built by `content_analyzer` (`src/research_agent.py`
lines 143-146): `r['content'][:200]` is `content.take 200`. -/
def contentSummary (docs : List Doc) : String :=
  String.intercalate "\n\n" ((docs.take 2).map (fun r =>
    "Source: " ++ r.title ++ "\nURL: " ++ r.url ++ "\nContent: " ++ r.content.take 200 ++ "..."))

/-- Prompt built by `content_analyzer` (`src/research_agent.py` lines 148-182). -/
def contentAnalyzerPrompt (query summary : String) : String :=
  "You are an expert analyst. Synthesize the following findings into a crisp, evidence‑backed analysis, and project the near‑term future.\n\nTOPIC: "
  ++ query
  ++ "\n\nFINDINGS (title, url, excerpts):\n"
  ++ summary
  ++ "\n\nDELIVERABLE (markdown):\n### Executive Insights (5–8 bullets)\n- Each insight should be specific, decision‑useful, and grounded in evidence.\n\n### Key Facts & Data\n- Fact (source)\n- Fact (source)\n\n### Comparative Notes or Alternatives (if applicable)\n- contrast…\n\n### Risks, Limitations, or Unknowns\n- risk…\n\n### Recommendations (3–5, actionable)\n- Start with a strong verb; include minimal rationale.\n\n### 12–24 Month Outlook (scenarios)\n- Best‑case, base‑case, risk‑aware scenarios and triggers to watch\n\n### Enterprise Adoption Considerations\n- Integration, governance, security, skills, and ROI notes\n\nCITATIONS:\n- Reference inline as (source: domain or short title) matching the provided URLs/titles. Do not fabricate sources.\nSTYLE:\n- Professional, precise, minimal adjectives. Avoid hedging. No hallucinations.\n"

/-- `src_lines` built by `report_generator` (`src/research_agent.py` lines
207-212).  `s.get('title','Untitled')` / `s.get('url','N/A')`: every `Doc`
carries both keys (see `Doc`), so the defaults never fire; the inner
`try/except: pass` can only be triggered by foreign objects and is dead here;
`(state.search_results or [])` is the identity on a list field. -/
def srcLines (docs : List Doc) : List String :=
  (docs.take 6).mapIdx (fun i s => "- " ++ toString (i + 1) ++ ". " ++ s.title ++ " (" ++ s.url ++ ")")

/-- `src_block` (`src/research_agent.py` line 213). -/
def srcBlock (docs : List Doc) : String :=
  String.intercalate "\n" (srcLines docs)

/-- Prompt built by `report_generator` (`src/research_agent.py` lines 215-251);
`prior_analysis = state.analysis or ""` is the identity on a string field. -/
def reportGeneratorPrompt (query prior_analysis src_block : String) : String :=
  "You are a principal researcher. Draft a concise, professional report for:\n\nTOPIC: "
  ++ query
  ++ "\n\nPRIOR ANALYSIS (for reference):\n"
  ++ prior_analysis
  ++ "\n\nSOURCES (short list):\n"
  ++ src_block
  ++ "\n\nSTRUCTURE (markdown):\n## Executive Summary\n- 4–6 bullets capturing the essence; avoid restating section headers.\n\n## Research Methodology (short)\n- Summarize the approach at a high level (analysis of reputable sources, timeframe, scope constraints).\n\n## Discussion & Implications\n- Most decision‑useful takeaways with brief rationale (reference sources inline by short title/domain).\n\n## 12–24 Month Outlook\n- Scenario‑based view (best/base/risk), key drivers, and signals to monitor.\n\n## Enterprise Adoption Roadmap\n- Phased steps (Pilot → Limited Deploy → Scale), risks/controls, KPIs, and ownership.\n\n## Vendor Landscape (short)\n- Compare LangChain, LangSmith, CrewAI, AutoGen (strengths, gaps, enterprise fit).\n\n## Conclusion\n- 2–3 sentences with a clear position and next steps.\n\nSTYLE & CONSTRAINTS:\n- Precise, confident, and evidence‑oriented. No fluff; avoid over‑generalization.\n- Use simple markdown lists and short paragraphs.\n - Include brief inline citations (source: short title/domain) when asserting facts.\n"

/-- `query_analyzer` (`src/research_agent.py` lines 56-94).  The `except`
branch catches everything raised in the `try` (in this embedding, only the
inference call), keeping mutations made before the raise. -/
def query_analyzer (g : GeminiOracle) (s : ResearchState) : StageOut :=
  let prompt := queryAnalyzerPrompt s.query
  match g prompt with
  | .ok content =>
      ⟨{ s with research_topic := content, status := "query_analyzed" },
       [⟨"LangGraph", "analyze_query", "started", "Analyzing query"⟩,
        ⟨"Gemini", "invoke", "started", "Generating topic analysis"⟩,
        ⟨"Gemini", "invoke", "completed", "Topic analysis generated"⟩,
        ⟨"LangGraph", "analyze_query", "completed", "Query analysis completed"⟩],
       [.geminiInvoke prompt]⟩
  | .error e =>
      ⟨{ s with error := some ("Query analysis failed: " ++ e), status := "error" },
       [⟨"LangGraph", "analyze_query", "started", "Analyzing query"⟩,
        ⟨"Gemini", "invoke", "started", "Generating topic analysis"⟩,
        ⟨"LangGraph", "analyze_query", "error", "Query analysis failed: " ++ e⟩],
       [.geminiInvoke prompt]⟩

/-- `result.get(key, "")` processing of one raw search result
(`src/research_agent.py` lines 116-121). -/
def processResult (r : RawResult) : Doc :=
  { title := r.title.getD "", url := r.url.getD "", content := r.content.getD "",
    source := r.source.getD "" }

/-- `web_researcher` (`src/research_agent.py` lines 97-131).  NOTE, faithful to
the source: the empty-query branch (lines 100-102) sets `error`/`status` but
does NOT return, so the Tavily search (with `max_results=3`) still runs, and on
success line 124 overwrites `status` with `"research_completed"` while `error`
stays set.  `search_response["results"][:2]` keeps only the first two results. -/
def web_researcher (t : TavilyOracle) (s : ResearchState) : StageOut :=
  let s1 := if s.query = ""
    then { s with error := some "No query provided for research", status := "error" }
    else s
  match t s1.query 3 with
  | .ok resp =>
      let results := ((resp.results.getD []).take 2).map processResult
      ⟨{ s1 with search_results := results, status := "research_completed" },
       [⟨"Tavily", "search", "started", "Searching the web"⟩,
        ⟨"Tavily", "search", "completed", "Found " ++ toString results.length ++ " results"⟩],
       [.tavilySearch s1.query 3]⟩
  | .error e =>
      ⟨{ s1 with error := some ("Web research failed: " ++ e), status := "error" },
       [⟨"Tavily", "search", "started", "Searching the web"⟩,
        ⟨"Tavily", "search", "error", "Web research failed: " ++ e⟩],
       [.tavilySearch s1.query 3]⟩

/-- `content_analyzer` (`src/research_agent.py` lines 134-197).  The
precondition branch (lines 137-140) returns early: no event, no call.  On a
raised failure the error event's component/action is `("Gemini", "invoke")`
(line 196), not the stage pair. -/
def content_analyzer (g : GeminiOracle) (s : ResearchState) : StageOut :=
  if s.search_results = [] then
    ⟨{ s with error := some "No search results to analyze", status := "error" }, [], []⟩
  else
    let prompt := contentAnalyzerPrompt s.query (contentSummary s.search_results)
    match g prompt with
    | .ok content =>
        ⟨{ s with analysis := content, status := "analysis_completed" },
         [⟨"LangGraph", "analyze_content", "started", "Analyzing synthesized content"⟩,
          ⟨"Gemini", "invoke", "started", "Synthesizing content analysis"⟩,
          ⟨"Gemini", "invoke", "completed", "Analysis synthesized"⟩,
          ⟨"LangGraph", "analyze_content", "completed", "Content analysis completed"⟩],
         [.geminiInvoke prompt]⟩
    | .error e =>
        ⟨{ s with error := some ("Content analysis failed: " ++ e), status := "error" },
         [⟨"LangGraph", "analyze_content", "started", "Analyzing synthesized content"⟩,
          ⟨"Gemini", "invoke", "started", "Synthesizing content analysis"⟩,
          ⟨"Gemini", "invoke", "error", "Content analysis failed: " ++ e⟩],
         [.geminiInvoke prompt]⟩

/-- `report_generator` (`src/research_agent.py` lines 200-263).  NOTE, faithful
to the source: the `except` branch (lines 260-263) sets `error`/`status` but
emits NO `error` event — unlike the other three stages. -/
def report_generator (g : GeminiOracle) (s : ResearchState) : StageOut :=
  let prompt := reportGeneratorPrompt s.query s.analysis (srcBlock s.search_results)
  match g prompt with
  | .ok content =>
      ⟨{ s with report := content, status := "report_generated" },
       [⟨"LangGraph", "generate_report", "started", "Composing final report"⟩,
        ⟨"Gemini", "invoke", "started", "Generating final report"⟩,
        ⟨"Gemini", "invoke", "completed", "Report generated"⟩,
        ⟨"LangGraph", "generate_report", "completed", "Report generation completed"⟩],
       [.geminiInvoke prompt]⟩
  | .error e =>
      ⟨{ s with error := some ("Report generation failed: " ++ e), status := "error" },
       [⟨"LangGraph", "generate_report", "started", "Composing final report"⟩,
        ⟨"Gemini", "invoke", "started", "Generating final report"⟩],
       [.geminiInvoke prompt]⟩

/-- The compiled graph of `build_research_graph` (`src/research_agent.py`
lines 267-284).  All five edges are unconditional `add_edge` calls
(START → analyze_query → research → analyze_content → generate_report → END);
there is no conditional routing, so the four node functions always run in
sequence, each receiving the previous node's state, and the run's event log /
call trace is the in-order concatenation of the stages'. -/
def runPipeline (g : GeminiOracle) (t : TavilyOracle) (s0 : ResearchState) : StageOut :=
  let r1 := query_analyzer g s0
  let r2 := web_researcher t r1.state
  let r3 := content_analyzer g r2.state
  let r4 := report_generator g r3.state
  ⟨r4.state, r1.events ++ r2.events ++ r3.events ++ r4.events,
   r1.calls ++ r2.calls ++ r3.calls ++ r4.calls⟩

/-- `ResearchState(query=query)` (`src/research_agent.py` line 296). -/
def initialState (query : String) : ResearchState := { query := query }

/-- The dict returned by `execute_research` (`src/research_agent.py` lines
288-342).  The success branch (lines 315-336) is unconditional once
`graph.invoke` returns: `success` is the literal `True` and no `"error"` key is
present (modelled as `error := none`), whatever `status` the final state holds.
The `except` branch (lines 337-342) is reachable only when an exception escapes
graph construction / invocation itself; every node catches its own exceptions,
so a stage failure never reaches it — hence it does not appear in this
embedding of a run. -/
structure RunOutput where
  success : Bool
  query : Option String
  topic_analysis : String
  search_results : List Doc
  analysis : String
  report : String
  status : String
  progress : List ProgressEvent
  error : Option String
  deriving DecidableEq

/-- `execute_research` (`src/research_agent.py` lines 288-342), success path. -/
def execute_research (g : GeminiOracle) (t : TavilyOracle) (query : String) : RunOutput :=
  let r := runPipeline g t (initialState query)
  { success := true,
    query := some r.state.query,
    topic_analysis := r.state.research_topic,
    search_results := r.state.search_results,
    analysis := r.state.analysis,
    report := r.state.report,
    status := r.state.status,
    progress := r.events,
    error := none }

/-- `ReportSection` (`src/report_generator.py` lines 27-32). -/
structure ReportSection where
  title : String
  content : String
  order : Nat
  deriving DecidableEq

/-- `ParallelReportGenerator._safe_invoke` (`src/report_generator.py` lines
43-50): invoke once after a fixed cooperative delay (the `time.sleep` has no
observable effect here); `getattr(resp, "content", "") or fallback` returns the
fallback both on a raised failure and on an empty response text. -/
def safe_invoke (g : GeminiOracle) (prompt fallback : String) : String :=
  match g prompt with
  | .ok content => if content = "" then fallback else content
  | .error _ => fallback

/-- Prompt of `_generate_executive_summary` (`src/report_generator.py` lines
54-59); `analysis[:700]` is `analysis.take 700`. -/
def executiveSummaryPrompt (query analysis : String) : String :=
  "Create a concise executive summary (120-180 words) for this research:\n\nTopic: "
  ++ query ++ "\nAnalysis: " ++ analysis.take 700
  ++ "...\n\nProvide only the summary text."

/-- Fallback of `_generate_executive_summary` (`src/report_generator.py` line
61): `(analysis[:300] + "...") if analysis else ""`. -/
def executiveSummaryFallback (analysis : String) : String :=
  if analysis = "" then "" else analysis.take 300 ++ "..."

/-- `_generate_executive_summary` (`src/report_generator.py` lines 52-66). -/
def generate_executive_summary (g : GeminiOracle) (query analysis : String) : ReportSection :=
  { title := "Executive Summary",
    content := safe_invoke g (executiveSummaryPrompt query analysis) (executiveSummaryFallback analysis),
    order := 1 }

/-- `sources_text` of `_generate_key_findings` (`src/report_generator.py`
lines 70-73). -/
def sourcesText (search_results : List Doc) : String :=
  String.intercalate "\n" ((search_results.take 2).map (fun r =>
    "- " ++ r.title ++ ": " ++ r.content.take 140 ++ "..."))

/-- Prompt of `_generate_key_findings` (`src/report_generator.py` lines 75-82). -/
def keyFindingsPrompt (analysis : String) (search_results : List Doc) : String :=
  "Extract and format key findings from this research analysis. Be specific and evidence‑oriented. Include brief inline citations using the source title/domain in parentheses:\n\nAnalysis: "
  ++ analysis.take 1800
  ++ "\n\nSupporting Sources:\n"
  ++ sourcesText search_results
  ++ "\n\nFormat as a bulleted list of 5–7 key findings."

/-- Fallback of `_generate_key_findings` (`src/report_generator.py` line 84). -/
def keyFindingsFallback : String := "- Insufficient data to extract key findings."

/-- `_generate_key_findings` (`src/report_generator.py` lines 68-89). -/
def generate_key_findings (g : GeminiOracle) (analysis : String) (search_results : List Doc) : ReportSection :=
  { title := "Key Findings",
    content := safe_invoke g (keyFindingsPrompt analysis search_results) keyFindingsFallback,
    order := 2 }

/-- Prompt of `_generate_methodology` (`src/report_generator.py` lines 93-101). -/
def methodologyPrompt (query : String) : String :=
  "Write a brief methodology section (80-120 words) for research on: "
  ++ query
  ++ "\n\nInclude:\n- Research approach\n- Data sources used (web search via Tavily)\n- Analysis methods\n- Limitations\n\nProvide only the methodology text."

/-- Fallback of `_generate_methodology` (`src/report_generator.py` line 103). -/
def methodologyFallback : String :=
  "Desk research using reputable web sources; qualitative synthesis; limited by public data and recency."

/-- `_generate_methodology` (`src/report_generator.py` lines 91-108). -/
def generate_methodology (g : GeminiOracle) (query : String) : ReportSection :=
  { title := "Research Methodology",
    content := safe_invoke g (methodologyPrompt query) methodologyFallback,
    order := 3 }

/-- Prompt of `_generate_implications` (`src/report_generator.py` lines 112-121). -/
def implicationsPrompt (analysis : String) : String :=
  "Based on this analysis, provide implications and recommendations (120-180 words). Be concise and action‑oriented:\n\n"
  ++ analysis.take 1200
  ++ "\n\nInclude:\n- Key implications\n- Recommendations for further research\n- Practical applications\n\nProvide only the implications text."

/-- Fallback of `_generate_implications` (`src/report_generator.py` line 123). -/
def implicationsFallback : String := "- Further research recommended; limited evidence available."

/-- `_generate_implications` (`src/report_generator.py` lines 110-128). -/
def generate_implications (g : GeminiOracle) (analysis : String) : ReportSection :=
  { title := "Implications & Recommendations",
    content := safe_invoke g (implicationsPrompt analysis) implicationsFallback,
    order := 4 }

/-- Prompt of `_generate_conclusion` (`src/report_generator.py` lines 132-136). -/
def conclusionPrompt (query analysis : String) : String :=
  "Write a professional conclusion (90-130 words) for research on: "
  ++ query
  ++ "\n\nAnalysis summary: " ++ analysis.take 400
  ++ "...\n\nProvide only the conclusion text."

/-- Fallback of `_generate_conclusion` (`src/report_generator.py` line 138). -/
def conclusionFallback : String :=
  "This research indicates promising momentum; however, conclusions are tentative given limited public evidence."

/-- `_generate_conclusion` (`src/report_generator.py` lines 130-143). -/
def generate_conclusion (g : GeminiOracle) (query analysis : String) : ReportSection :=
  { title := "Conclusion",
    content := safe_invoke g (conclusionPrompt query analysis) conclusionFallback,
    order := 5 }

/-- The five generation tasks of `generate_report_async`
(`src/report_generator.py` lines 156-185), in task-submission order. -/
def sectionTasks (g : GeminiOracle) (query analysis : String) (search_results : List Doc) :
    List ReportSection :=
  [generate_executive_summary g query analysis,
   generate_key_findings g analysis search_results,
   generate_methodology g query,
   generate_implications g analysis,
   generate_conclusion g query analysis]

/-- The comparison key of `sections.sort(key=lambda x: x.order)`
(`src/report_generator.py` line 190). -/
def orderLE (a b : ReportSection) : Prop := a.order ≤ b.order

instance : DecidableRel orderLE := fun a b => inferInstanceAs (Decidable (a.order ≤ b.order))

instance : IsTotal ReportSection orderLE := ⟨fun a b => Nat.le_total a.order b.order⟩

instance : IsTrans ReportSection orderLE := ⟨fun _ _ _ => Nat.le_trans⟩

/-- `sections.sort(key=lambda x: x.order)` (`src/report_generator.py` line
190): a comparison sort by ascending `order`. -/
def sortByOrder (l : List ReportSection) : List ReportSection := List.insertionSort orderLE l

/-- One bullet of the literature review (`src/report_generator.py` lines
218-222): `src.get('title', 'Untitled')` / `.get('url', 'N/A')` never default
on a `Doc` (all keys present, see `Doc`); `(src.get('content', '') or '')[:200]
.replace('\n', ' ')` is a 200-codepoint prefix with newlines mapped to spaces. -/
def literaturePoint (src : Doc) : String :=
  "- " ++ src.title ++ " — "
  ++ String.map (fun c => if c = '\n' then ' ' else c) (src.content.take 200)
  ++ "… (URL: " ++ src.url ++ ")"

/-- `literature_review` (`src/report_generator.py` lines 217-224). -/
def literatureReview (search_results : List Doc) : String :=
  let pts := (search_results.take 5).map literaturePoint
  if pts = [] then "- N/A" else String.intercalate "\n" pts

/-- One `mermaid_findings` edge (`src/report_generator.py` lines 231-234):
`src.get('title', f'Source {i}')` never defaults on a `Doc`; the two
single-character `.replace` calls are composed into one character map. -/
def mermaidEdge (i : Nat) (src : Doc) : String :=
  "  S" ++ toString i ++ "["
  ++ String.map (fun c => if c = '[' then '(' else if c = ']' then ')' else c) src.title
  ++ "] --> B"

/-- `mermaid_block` (`src/report_generator.py` lines 227-235). -/
def mermaidBlock (search_results : List Doc) : String :=
  String.intercalate "\n"
    (["graph LR", "  A[Query] --> B[Key Findings]"]
      ++ (search_results.take 3).mapIdx (fun i src => mermaidEdge (i + 1) src))

/-- One enumerated source entry (`src/report_generator.py` lines 287-290);
the `.get` defaults (`'Untitled'`, `'N/A'`, `'Unknown'`) never fire on a `Doc`. -/
def sourceEntry (i : Nat) (src : Doc) : String :=
  toString i ++ ". **" ++ src.title ++ "**\n"
  ++ "   URL: " ++ src.url ++ "\n"
  ++ "   Source: " ++ src.source ++ "\n\n"

/-- The enumerated source list appended after `## Sources`
(`src/report_generator.py` lines 285-290). -/
def sourcesBlock (search_results : List Doc) : String :=
  String.join ((search_results.take 10).mapIdx (fun i src => sourceEntry (i + 1) src))

/-- The fixed f-string template of `_compile_report` (`src/report_generator.py`
lines 245-294), split at its interpolation points.  `now` stands for
`datetime.now().strftime('%B %d, %Y at %H:%M:%S')` (line 247), a wall-clock
read performed on each invocation.  Note the template renders the methodology
content (under `## Methodology`) BEFORE the key-findings content (under
`## Key Findings`). -/
def reportTemplate (query exec_summary methodology key_findings implications conclusion : String)
    (search_results : List Doc) (now : String) : String :=
  "# 🧠 Research Report: " ++ query
  ++ "\n\nGenerated: " ++ now
  ++ "\n\n---\n\n## Abstract\n\n" ++ exec_summary
  ++ "\n\n## Methodology\n\n" ++ methodology
  ++ "\n\n## Literature Review\n\n" ++ literatureReview search_results
  ++ "\n\n## Key Findings\n\n" ++ key_findings
  ++ "\n\n### Findings Overview (Visual)\n\n```mermaid\n" ++ mermaidBlock search_results
  ++ "\n```\n\n## Discussion\n\n" ++ implications
  ++ "\n\n## Conclusion\n\n" ++ conclusion
  ++ "\n\n## Sources\n\n"
  ++ sourcesBlock search_results
  ++ "\n---\n\n*Report generated by Research AI Agent*\n"
  ++ "*Total sources analyzed: " ++ toString search_results.length ++ "*\n"

/-- `sec_map.get(title, ReportSection(title, "", order))`
(`src/report_generator.py` lines 238-243): `{s.title: s for s in sections}` is
a dict comprehension where a later section with the same title wins, hence the
last matching element. -/
def secGet (sections : List ReportSection) (title : String) (dflt : ReportSection) : ReportSection :=
  ((sections.filter (fun s => s.title == title)).getLast?).getD dflt

/-- `_compile_report` (`src/report_generator.py` lines 208-295). -/
def compile_report (query : String) (sections : List ReportSection)
    (search_results : List Doc) (now : String) : String :=
  reportTemplate query
    (secGet sections "Executive Summary" ⟨"Executive Summary", "", 1⟩).content
    (secGet sections "Research Methodology" ⟨"Research Methodology", "", 3⟩).content
    (secGet sections "Key Findings" ⟨"Key Findings", "", 2⟩).content
    (secGet sections "Implications & Recommendations" ⟨"Implications & Recommendations", "", 4⟩).content
    (secGet sections "Conclusion" ⟨"Conclusion", "", 5⟩).content
    search_results now

/-- The fan-in tail of `generate_report_async` (`src/report_generator.py`
lines 187-197): sort the gathered sections by `order`, then compile.
`gathered` is the list returned by `asyncio.gather(*tasks)`; `gather` returns
results in task-submission order, so in the program it equals
`sectionTasks g query analysis search_results` — the theorems quantify over
permutations of that list so that the artificial completion order of the five
concurrent tasks (spec §4.3/§8) is modelled adversarially. -/
def compileFromGathered (query : String) (gathered : List ReportSection)
    (search_results : List Doc) (now : String) : String :=
  compile_report query (sortByOrder gathered) search_results now

/-- The dict returned by `generate_report_async` (`src/report_generator.py`
lines 199-206); `generated_at` is a second wall-clock read
(`datetime.now().isoformat()`), passed as `nowIso`. -/
structure GenResult where
  success : Bool
  query : String
  report : String
  sections_count : Nat
  generated_at : String
  sources_count : Nat
  deriving DecidableEq

/-- `generate_report_async` (`src/report_generator.py` lines 145-206).
`maxWorkers` is the `ThreadPoolExecutor` bound (lines 38-41); it limits how
many of the five tasks run simultaneously and does not occur in the value. -/
def generate_report_async (maxWorkers : Nat) (g : GeminiOracle) (query analysis : String)
    (search_results : List Doc) (nowFmt nowIso : String) : GenResult :=
  let _ := maxWorkers
  let sections := sortByOrder (sectionTasks g query analysis search_results)
  { success := true,
    query := query,
    report := compile_report query sections search_results nowFmt,
    sections_count := sections.length,
    generated_at := nowIso,
    sources_count := search_results.length }

/-! ### Helper lemmas: sorting the five sections -/

instance : IsAntisymm ReportSection (fun a b => a.order < b.order) :=
  ⟨fun _ _ h1 h2 => absurd (Nat.lt_trans h1 h2) (Nat.lt_irrefl _)⟩

/-- The five generation tasks carry the fixed, strictly increasing orders 1..5. -/
theorem sectionTasks_orderSorted (g : GeminiOracle) (q a : String) (srcs : List Doc) :
    List.Pairwise (fun x y : ReportSection => x.order < y.order) (sectionTasks g q a srcs) := by
  have h : ((sectionTasks g q a srcs).map ReportSection.order) = [1, 2, 3, 4, 5] := rfl
  have h2 : List.Pairwise (fun x y : Nat => x < y) ((sectionTasks g q a srcs).map ReportSection.order) := by
    rw [h]; decide
  exact List.pairwise_map.mp h2

/-- Sorting any permutation of a list whose `order` keys are strictly
increasing gives back that list: `order` is a property of section identity,
so the outcome is independent of arrival order. -/
theorem sortByOrder_perm_eq (c l : List ReportSection)
    (hperm : l.Perm c)
    (hc : List.Pairwise (fun x y : ReportSection => x.order < y.order) c) :
    sortByOrder l = c := by
  have hs : List.Sorted orderLE (sortByOrder l) := List.sorted_insertionSort orderLE l
  have hp : (sortByOrder l).Perm c := (List.perm_insertionSort orderLE l).trans hperm
  have hne_c : List.Pairwise (fun x y : ReportSection => x.order ≠ y.order) c :=
    hc.imp (fun h => Nat.ne_of_lt h)
  have hne : List.Pairwise (fun x y : ReportSection => x.order ≠ y.order) (sortByOrder l) :=
    (List.Perm.pairwise_iff (fun h => h.symm) hp).mpr hne_c
  have hlt : List.Sorted (fun x y : ReportSection => x.order < y.order) (sortByOrder l) :=
    (hs.and hne).imp (fun h => Nat.lt_of_le_of_ne h.1 h.2)
  exact List.eq_of_perm_of_sorted hp hlt hc

/-- Dict lookups of `_compile_report` on the five generated tasks. -/
theorem secGet_tasks_exec (g : GeminiOracle) (q a : String) (srcs : List Doc) (d : ReportSection) :
    secGet (sectionTasks g q a srcs) "Executive Summary" d = generate_executive_summary g q a := rfl

theorem secGet_tasks_methodology (g : GeminiOracle) (q a : String) (srcs : List Doc) (d : ReportSection) :
    secGet (sectionTasks g q a srcs) "Research Methodology" d = generate_methodology g q := rfl

theorem secGet_tasks_keyFindings (g : GeminiOracle) (q a : String) (srcs : List Doc) (d : ReportSection) :
    secGet (sectionTasks g q a srcs) "Key Findings" d = generate_key_findings g a srcs := rfl

theorem secGet_tasks_implications (g : GeminiOracle) (q a : String) (srcs : List Doc) (d : ReportSection) :
    secGet (sectionTasks g q a srcs) "Implications & Recommendations" d = generate_implications g a := rfl

theorem secGet_tasks_conclusion (g : GeminiOracle) (q a : String) (srcs : List Doc) (d : ReportSection) :
    secGet (sectionTasks g q a srcs) "Conclusion" d = generate_conclusion g q a := rfl

/-- Compiling the gathered five tasks (in any arrival order equal to the task
list itself) renders the fixed template filled with the five generated
contents. -/
theorem compile_tasks_template (g : GeminiOracle) (q a q2 : String)
    (srcs srcs2 : List Doc) (now : String) :
    compileFromGathered q2 (sectionTasks g q a srcs) srcs2 now =
      reportTemplate q2
        (generate_executive_summary g q a).content
        (generate_methodology g q).content
        (generate_key_findings g a srcs).content
        (generate_implications g a).content
        (generate_conclusion g q a).content
        srcs2 now := by
  unfold compileFromGathered
  rw [sortByOrder_perm_eq (sectionTasks g q a srcs) (sectionTasks g q a srcs)
    (List.Perm.refl _) (sectionTasks_orderSorted g q a srcs)]
  rfl

/-! ### Helper definitions: the started-before-terminal lifecycle check -/

/-- The (component, action, status) signature of an event; messages and
timestamps are irrelevant to the lifecycle invariant. -/
abbrev Sig := String × String × String

def sig (e : ProgressEvent) : Sig := (e.component, e.action, e.status)

def pairOf (x : Sig) : String × String := (x.1, x.2.1)

def statusOf (x : Sig) : String := x.2.2

def isTerminalStatus (s : String) : Bool := s == "completed" || s == "error"

/-- The status of the most recent earlier event with the same
(component, action) pair, if any. -/
def lastSamePairStatus (pre : List Sig) (x : Sig) : Option String :=
  ((pre.filter (fun y => pairOf y == pairOf x)).getLast?).map statusOf

/-- Scan of the event log: a terminal (`completed`/`error`) event is legal only
when the nearest earlier event with the same (component, action) pair is a
`started` event.  Over an alphabet of `started`/`completed`/`error` statuses
this is equivalent to the conjunction of (1) every terminal event is preceded
by a `started` event with the same pair, and (2) at most one terminal event
follows each `started` event before the next `started` event with that pair:
a second terminal without an intervening `started` would see the first
terminal as its nearest same-pair event. -/
def eventsOKFrom : List Sig → List Sig → Bool
  | _, [] => true
  | pre, x :: rest =>
    (if isTerminalStatus (statusOf x) then lastSamePairStatus pre x == some "started" else true)
      && eventsOKFrom (pre ++ [x]) rest

def eventsOK (l : List Sig) : Bool := eventsOKFrom [] l

/-! ### Helper lemmas: the event signatures each stage can produce -/

/-- The two possible signature sequences of `query_analyzer`. -/
def qaSig (ok : Bool) : List Sig :=
  if ok then
    [("LangGraph", "analyze_query", "started"), ("Gemini", "invoke", "started"),
     ("Gemini", "invoke", "completed"), ("LangGraph", "analyze_query", "completed")]
  else
    [("LangGraph", "analyze_query", "started"), ("Gemini", "invoke", "started"),
     ("LangGraph", "analyze_query", "error")]

/-- The two possible signature sequences of `web_researcher`. -/
def wrSig (ok : Bool) : List Sig :=
  if ok then [("Tavily", "search", "started"), ("Tavily", "search", "completed")]
  else [("Tavily", "search", "started"), ("Tavily", "search", "error")]

/-- The three possible signature sequences of `content_analyzer`
(`none` = precondition branch, which emits nothing). -/
def caSig : Option Bool → List Sig
  | none => []
  | some true =>
    [("LangGraph", "analyze_content", "started"), ("Gemini", "invoke", "started"),
     ("Gemini", "invoke", "completed"), ("LangGraph", "analyze_content", "completed")]
  | some false =>
    [("LangGraph", "analyze_content", "started"), ("Gemini", "invoke", "started"),
     ("Gemini", "invoke", "error")]

/-- The two possible signature sequences of `report_generator`; note the
failure branch ends after the two `started` events (no `error` event). -/
def rgSig (ok : Bool) : List Sig :=
  if ok then
    [("LangGraph", "generate_report", "started"), ("Gemini", "invoke", "started"),
     ("Gemini", "invoke", "completed"), ("LangGraph", "generate_report", "completed")]
  else
    [("LangGraph", "generate_report", "started"), ("Gemini", "invoke", "started")]

theorem qa_sig_shape (g : GeminiOracle) (s : ResearchState) :
    ∃ b, ((query_analyzer g s).events).map sig = qaSig b := by
  cases h : g (queryAnalyzerPrompt s.query)
  · exact ⟨false, by simp [query_analyzer, h, qaSig, sig]⟩
  · exact ⟨true, by simp [query_analyzer, h, qaSig, sig]⟩

theorem wr_query_stable (s : ResearchState) :
    (if s.query = "" then { s with error := some "No query provided for research", status := "error" } else s).query = s.query := by
  split <;> rfl

theorem wr_sig_shape (t : TavilyOracle) (s : ResearchState) :
    ∃ b, ((web_researcher t s).events).map sig = wrSig b := by
  cases h : t s.query 3
  · exact ⟨false, by simp only [web_researcher, wr_query_stable, h]; simp [wrSig, sig]⟩
  · exact ⟨true, by simp only [web_researcher, wr_query_stable, h]; simp [wrSig, sig]⟩

theorem ca_sig_shape (g : GeminiOracle) (s : ResearchState) :
    ∃ c, ((content_analyzer g s).events).map sig = caSig c := by
  by_cases hr : s.search_results = []
  · exact ⟨none, by simp [content_analyzer, hr, caSig]⟩
  · cases h : g (contentAnalyzerPrompt s.query (contentSummary s.search_results))
    · exact ⟨some false, by simp [content_analyzer, hr, h, caSig, sig]⟩
    · exact ⟨some true, by simp [content_analyzer, hr, h, caSig, sig]⟩

theorem rg_sig_shape (g : GeminiOracle) (s : ResearchState) :
    ∃ b, ((report_generator g s).events).map sig = rgSig b := by
  cases h : g (reportGeneratorPrompt s.query s.analysis (srcBlock s.search_results))
  · exact ⟨false, by simp [report_generator, h, rgSig, sig]⟩
  · exact ⟨true, by simp [report_generator, h, rgSig, sig]⟩

/-- All 24 combinations of per-stage outcomes yield a lifecycle-correct log. -/
theorem eventsOK_append_shapes (b1 b2 b4 : Bool) (c : Option Bool) :
    eventsOK (qaSig b1 ++ wrSig b2 ++ caSig c ++ rgSig b4) = true := by
  rcases c with _ | b3
  · cases b1 <;> cases b2 <;> cases b4 <;> decide
  · cases b3 <;> cases b1 <;> cases b2 <;> cases b4 <;> decide

/-! ### Helper lemmas: stage state/calls facts -/

theorem qa_state_query (g : GeminiOracle) (s : ResearchState) :
    (query_analyzer g s).state.query = s.query := by
  cases h : g (queryAnalyzerPrompt s.query) <;> simp [query_analyzer, h]

/-- `web_researcher` always issues exactly one search call, with
`max_results = 3` and the state's query — also when the query is empty. -/
theorem wr_calls (t : TavilyOracle) (s : ResearchState) :
    (web_researcher t s).calls = [ExtCall.tavilySearch s.query 3] := by
  cases h : t s.query 3 <;> simp only [web_researcher, wr_query_stable, h]

/-- `web_researcher` always emits the `started` search event first. -/
theorem wr_started_mem (t : TavilyOracle) (s : ResearchState) :
    (⟨"Tavily", "search", "started", "Searching the web"⟩ : ProgressEvent) ∈
      (web_researcher t s).events := by
  cases h : t s.query 3 <;> simp only [web_researcher, wr_query_stable, h] <;> simp

/-! ### Helper definitions: substring positions, to express rendering order -/

/-- First index at which `needle` occurs in `hay` as a contiguous sublist. -/
def findSub : List Char → List Char → Option Nat
  | [], needle => if needle = [] then some 0 else none
  | c :: rest, needle =>
    if needle.isPrefixOf (c :: rest) then some 0
    else (findSub rest needle).map (· + 1)

/-- First occurrence index of `needle` in `hay`, by code points. -/
def strIdx (hay needle : String) : Option Nat := findSub hay.data needle.data

/-- All indices present and strictly increasing. -/
def ascendingIdx : List (Option Nat) → Bool
  | [] => true
  | [o] => o.isSome
  | some i :: some j :: rest => decide (i < j) && ascendingIdx (some j :: rest)
  | none :: _ => false
  | some _ :: none :: _ => false

/-- `needles` all occur in `r`, with first occurrences in the given order. -/
def appearsInOrder (r : String) (needles : List String) : Bool :=
  ascendingIdx (needles.map (strIdx r))

/-! ### Concrete fixtures used by witnesses and counterexamples -/

/-- An inference oracle whose every call raises (exception text `"boom"`). -/
def gFailAll : GeminiOracle := fun _ => .error "boom"

/-- An inference oracle whose every call returns the text `"ok"`. -/
def gOkConst : GeminiOracle := fun _ => .ok "ok"

/-- A search oracle whose every call raises (exception text `"down"`). -/
def tFailAll : TavilyOracle := fun _ _ => .error "down"

/-- A search oracle returning a response with an empty `"results"` list. -/
def tOkEmpty : TavilyOracle := fun _ _ => .ok ⟨some []⟩

/-- A search oracle returning three raw results. -/
def tOkThree : TavilyOracle := fun _ _ => .ok ⟨some
  [⟨some "R1", some "u1", some "c1", some "s1"⟩,
   ⟨some "R2", some "u2", some "c2", none⟩,
   ⟨some "R3", some "u3", some "c3", some "s3"⟩]⟩

/-- Five sections with the shapes the five generation tasks produce
(titles and orders fixed by the code), with distinctive marker contents. -/
def markerSections : List ReportSection :=
  [⟨"Executive Summary", "ZEXECZ", 1⟩,
   ⟨"Key Findings", "ZKFZ", 2⟩,
   ⟨"Research Methodology", "ZMETHZ", 3⟩,
   ⟨"Implications & Recommendations", "ZIMPLZ", 4⟩,
   ⟨"Conclusion", "ZCONCZ", 5⟩]

/-- A concrete state with a nonempty query and one search result, used to
exercise the content-analysis stage. -/
def sWitness : ResearchState :=
  { initialState "q" with search_results := [⟨"T1", "u1", "c1", "s1"⟩] }

/-- A search oracle whose every call raises (exception text `"boom"`). -/
def tFailBoom : TavilyOracle := fun _ _ => .error "boom"

/-! ## Claim C1 -/

/-- Claim C1, counterexample.  The claim states that once a stage sets
`RunState.status` to `error`, no subsequent stage is invoked and no
ProgressEvent for a later stage is appended.  Concretely: the inference oracle
fails, so `analyze_query` ends in status `error` (the error event sits at
index 2 of the log) — yet the research stage still runs: a Tavily `started`
event is appended right after (index 3), a Tavily search call is issued, and
the log continues through the later stages.  `build_research_graph` wires the
stages with unconditional edges only (lines 278-282), so nothing
short-circuits. -/
theorem C1_counterexample :
    (query_analyzer gFailAll (initialState "q")).state.status = "error" ∧
    ((runPipeline gFailAll tOkEmpty (initialState "q")).events.map sig) =
      [("LangGraph", "analyze_query", "started"), ("Gemini", "invoke", "started"),
       ("LangGraph", "analyze_query", "error"),
       ("Tavily", "search", "started"), ("Tavily", "search", "completed"),
       ("LangGraph", "generate_report", "started"), ("Gemini", "invoke", "started")] ∧
    ((runPipeline gFailAll tOkEmpty (initialState "q")).events.map sig)[2]? =
      some ("LangGraph", "analyze_query", "error") ∧
    ((runPipeline gFailAll tOkEmpty (initialState "q")).events.map sig)[3]? =
      some ("Tavily", "search", "started") ∧
    ExtCall.tavilySearch "q" 3 ∈ (runPipeline gFailAll tOkEmpty (initialState "q")).calls := by
  decide

/-- Claim C1, amended.  The pipeline does NOT short-circuit on error: the four
stages are wired with unconditional edges, so even when the first stage fails
(status `error`), the research stage is still invoked — it issues its search
call and appends its ProgressEvents to the log. -/
theorem C1_amended_pipeline_continues (q : String) (g : GeminiOracle) (t : TavilyOracle)
    (e : String) (h : g (queryAnalyzerPrompt q) = .error e) :
    (query_analyzer g (initialState q)).state.status = "error" ∧
    ExtCall.tavilySearch q 3 ∈ (runPipeline g t (initialState q)).calls ∧
    (⟨"Tavily", "search", "started", "Searching the web"⟩ : ProgressEvent) ∈
      (runPipeline g t (initialState q)).events := by
  refine ⟨by simp [query_analyzer, initialState, h], ?_, ?_⟩
  · have hc := wr_calls t (query_analyzer g (initialState q)).state
    rw [qa_state_query g (initialState q)] at hc
    simp only [runPipeline, List.mem_append]
    rw [hc]
    simp [initialState]
  · simp only [runPipeline, List.mem_append]
    exact Or.inl (Or.inl (Or.inr (wr_started_mem t _)))

/-- Claim C1, witness for the amended theorem at a concrete failing oracle. -/
theorem C1_witness :
    (query_analyzer gFailAll (initialState "q")).state.status = "error" ∧
    ExtCall.tavilySearch "q" 3 ∈ (runPipeline gFailAll tOkEmpty (initialState "q")).calls ∧
    (⟨"Tavily", "search", "started", "Searching the web"⟩ : ProgressEvent) ∈
      (runPipeline gFailAll tOkEmpty (initialState "q")).events :=
  C1_amended_pipeline_continues "q" gFailAll tOkEmpty "boom" rfl

/-! ## Claim C2 -/

/-- Claim C2, counterexample.  The claim states that a run whose state ends in
status `error` with an error message (and no exception escaping the graph
invocation) yields a result with a false success flag and an error string.
Concretely: with every external call failing, the final state has status
`error` and a set error message, yet `execute_research` returns
`success = True` and carries no error field — its success branch (lines
315-336) is unconditional once the graph invocation returns, and every node
catches its own exceptions. -/
theorem C2_counterexample :
    (runPipeline gFailAll tFailAll (initialState "q")).state.status = "error" ∧
    (runPipeline gFailAll tFailAll (initialState "q")).state.error =
      some "Report generation failed: boom" ∧
    (execute_research gFailAll tFailAll "q").success = true ∧
    (execute_research gFailAll tFailAll "q").error = none ∧
    (execute_research gFailAll tFailAll "q").status = "error" := by decide

/-- Claim C2, amended.  For every run in which a pipeline stage fails (final
status `error`, no exception escaping the graph invocation), `execute_research`
returns `success = true` and no error string; the failure is visible only
through the returned `status` field (and the events).  A false success flag is
produced only by the `except` branch, which requires an exception to escape
the graph invocation itself. -/
theorem C2_amended_success_flag (g : GeminiOracle) (t : TavilyOracle) (q : String)
    (h : (runPipeline g t (initialState q)).state.status = "error") :
    (execute_research g t q).success = true ∧
    (execute_research g t q).error = none ∧
    (execute_research g t q).status = "error" :=
  ⟨rfl, rfl, h⟩

/-- Claim C2, witness for the amended theorem at concrete failing oracles. -/
theorem C2_witness :
    (execute_research gFailAll tFailAll "q").success = true ∧
    (execute_research gFailAll tFailAll "q").error = none ∧
    (execute_research gFailAll tFailAll "q").status = "error" :=
  C2_amended_success_flag gFailAll tFailAll "q" (by decide)

/-! ## Claim C3 -/

/-- Claim C3, counterexample.  The claim states that report compilation is pure
and deterministic: two invocations with identical five sections and source
list produce byte-identical text.  The compile template interpolates
`datetime.now().strftime(...)` (`src/report_generator.py` line 247), a
wall-clock read performed anew on each invocation (modelled as the `now`
argument), so two invocations with identical sections and sources — at
different clock readings — produce different bytes. -/
theorem C3_counterexample :
    compileFromGathered "q" markerSections [] "October 10, 2025 at 10:00:00" ≠
      compileFromGathered "q" markerSections [] "October 10, 2025 at 10:00:01" := by decide

/-- Claim C3, amended.  Compilation is deterministic given the five generated
sections, the source list, AND the generation timestamp: the output is
independent of the completion order of the five generation tasks (any
permutation of the gathered list compiles to the same bytes) and of the worker
bound `W`, which does not occur in the compiled value. -/
theorem C3_amended_determinism (g : GeminiOracle) (q a q2 now : String)
    (srcs srcs2 : List Doc) (l1 l2 : List ReportSection) (W1 W2 : Nat) (nf ni : String)
    (h1 : l1.Perm (sectionTasks g q a srcs)) (h2 : l2.Perm (sectionTasks g q a srcs)) :
    compileFromGathered q2 l1 srcs2 now = compileFromGathered q2 l2 srcs2 now ∧
    generate_report_async W1 g q a srcs nf ni = generate_report_async W2 g q a srcs nf ni := by
  constructor
  · unfold compileFromGathered
    rw [sortByOrder_perm_eq _ _ h1 (sectionTasks_orderSorted g q a srcs),
        sortByOrder_perm_eq _ _ h2 (sectionTasks_orderSorted g q a srcs)]
  · rfl

/-- Claim C3, witness: fully parallel (`W=5`) vs serialized (`W=1`) and a
reversed completion order give identical outputs at concrete inputs. -/
theorem C3_witness :
    compileFromGathered "q2" ((sectionTasks gOkConst "q" "a" []).reverse) [] "T" =
      compileFromGathered "q2" (sectionTasks gOkConst "q" "a" []) [] "T" ∧
    generate_report_async 1 gOkConst "q" "a" [] "T" "I" =
      generate_report_async 5 gOkConst "q" "a" [] "T" "I" :=
  C3_amended_determinism gOkConst "q" "a" "q2" "T" [] []
    ((sectionTasks gOkConst "q" "a" []).reverse) (sectionTasks gOkConst "q" "a" [])
    1 5 "T" "I" (List.reverse_perm _) (List.Perm.refl _)

/-! ## Claim C4 -/

/-- Claim C4 (code bug), evaluation at the failing input.  The claim states
that a stage whose precondition is unmet sets `error`/status `error` WITHOUT
invoking its external capability.  The content-analysis half is exactly what
the code does (second block of conjuncts: error message
"No search results to analyze", no call, no event).  The research half is
violated: `web_researcher` invoked with an empty query sets the error fields
(lines 100-102) but, lacking a `return`, still issues the Tavily search — and
on search success line 124 overwrites the status with `"research_completed"`
while the precondition error message remains in `error`.  The parallel
precondition check in `content_analyzer` (lines 137-140) does return early,
which marks the missing `return` as a slip rather than intent. -/
theorem C4_code_bug_eval :
    (web_researcher tOkThree (initialState "")).calls = [ExtCall.tavilySearch "" 3] ∧
    (web_researcher tOkThree (initialState "")).state.status = "research_completed" ∧
    (web_researcher tOkThree (initialState "")).state.error =
      some "No query provided for research" ∧
    (content_analyzer gOkConst (initialState "X")).state.status = "error" ∧
    (content_analyzer gOkConst (initialState "X")).state.error =
      some "No search results to analyze" ∧
    (content_analyzer gOkConst (initialState "X")).calls = [] ∧
    (content_analyzer gOkConst (initialState "X")).events = [] := by decide

/-! ## Claim C5 -/

set_option maxRecDepth 20000 in
/-- Claim C5, counterexample.  The claim states the compiled report renders the
five sections in the order executive summary, key findings, methodology,
implications, conclusion.  With distinctive marker contents, all five section
contents occur in the report, but their first occurrences are NOT in that
order: the template (`src/report_generator.py` lines 245-283) interpolates the
methodology content (under `## Methodology`) before the key-findings content
(under `## Key Findings`). -/
theorem C5_counterexample :
    (strIdx (compileFromGathered "q" markerSections [] "T") "ZEXECZ").isSome = true ∧
    (strIdx (compileFromGathered "q" markerSections [] "T") "ZKFZ").isSome = true ∧
    (strIdx (compileFromGathered "q" markerSections [] "T") "ZMETHZ").isSome = true ∧
    (strIdx (compileFromGathered "q" markerSections [] "T") "ZIMPLZ").isSome = true ∧
    (strIdx (compileFromGathered "q" markerSections [] "T") "ZCONCZ").isSome = true ∧
    appearsInOrder (compileFromGathered "q" markerSections [] "T")
      ["ZEXECZ", "ZKFZ", "ZMETHZ", "ZIMPLZ", "ZCONCZ"] = false := by decide

set_option maxRecDepth 20000 in
/-- Claim C5, amended.  For every completion order of the five generation
tasks (any permutation of the gathered sections), the compiled report is the
same and contains all five section contents, rendered in the fixed template
order executive summary, METHODOLOGY, KEY FINDINGS, implications, conclusion —
order is a property of section identity (title/order), not completion
sequence. -/
theorem C5_amended_section_order (l : List ReportSection) (h : l.Perm markerSections) :
    compileFromGathered "q" l [] "T" = compileFromGathered "q" markerSections [] "T" ∧
    appearsInOrder (compileFromGathered "q" l [] "T")
      ["ZEXECZ", "ZMETHZ", "ZKFZ", "ZIMPLZ", "ZCONCZ"] = true := by
  have hs : sortByOrder l = markerSections :=
    sortByOrder_perm_eq markerSections l h (by decide)
  have he : compileFromGathered "q" l [] "T" = compileFromGathered "q" markerSections [] "T" := by
    unfold compileFromGathered
    rw [hs, sortByOrder_perm_eq markerSections markerSections (List.Perm.refl _) (by decide)]
  refine ⟨he, ?_⟩
  rw [he]
  decide

/-- Claim C5, witness for the amended theorem, at a reversed completion order. -/
theorem C5_witness :
    compileFromGathered "q" markerSections.reverse [] "T" =
      compileFromGathered "q" markerSections [] "T" ∧
    appearsInOrder (compileFromGathered "q" markerSections.reverse [] "T")
      ["ZEXECZ", "ZMETHZ", "ZKFZ", "ZIMPLZ", "ZCONCZ"] = true :=
  C5_amended_section_order markerSections.reverse (List.reverse_perm _)

/-! ## Claim C6 -/

/-- Claim C6: for every section-generation task, a failing inference call makes
the task return its deterministic, stage-specific fallback string as an
ordinary `ReportSection` (first five conjuncts); each of the other sections
depends only on the answer to its own prompt, so it is unaffected by another
task's failure (next five conjuncts); and compilation always renders the fixed
template filled with the five task contents, so a failed task's fallback text
appears in a well-formed report in that task's slot (last conjunct). -/
theorem C6_section_fallbacks (g : GeminiOracle) (q a q2 : String) (srcs srcs2 : List Doc)
    (now e : String) :
    (g (executiveSummaryPrompt q a) = .error e →
      generate_executive_summary g q a = ⟨"Executive Summary", executiveSummaryFallback a, 1⟩) ∧
    (g (keyFindingsPrompt a srcs) = .error e →
      generate_key_findings g a srcs = ⟨"Key Findings", keyFindingsFallback, 2⟩) ∧
    (g (methodologyPrompt q) = .error e →
      generate_methodology g q = ⟨"Research Methodology", methodologyFallback, 3⟩) ∧
    (g (implicationsPrompt a) = .error e →
      generate_implications g a = ⟨"Implications & Recommendations", implicationsFallback, 4⟩) ∧
    (g (conclusionPrompt q a) = .error e →
      generate_conclusion g q a = ⟨"Conclusion", conclusionFallback, 5⟩) ∧
    (∀ g2 : GeminiOracle, g2 (executiveSummaryPrompt q a) = g (executiveSummaryPrompt q a) →
      generate_executive_summary g2 q a = generate_executive_summary g q a) ∧
    (∀ g2 : GeminiOracle, g2 (keyFindingsPrompt a srcs) = g (keyFindingsPrompt a srcs) →
      generate_key_findings g2 a srcs = generate_key_findings g a srcs) ∧
    (∀ g2 : GeminiOracle, g2 (methodologyPrompt q) = g (methodologyPrompt q) →
      generate_methodology g2 q = generate_methodology g q) ∧
    (∀ g2 : GeminiOracle, g2 (implicationsPrompt a) = g (implicationsPrompt a) →
      generate_implications g2 a = generate_implications g a) ∧
    (∀ g2 : GeminiOracle, g2 (conclusionPrompt q a) = g (conclusionPrompt q a) →
      generate_conclusion g2 q a = generate_conclusion g q a) ∧
    compileFromGathered q2 (sectionTasks g q a srcs) srcs2 now =
      reportTemplate q2
        (generate_executive_summary g q a).content
        (generate_methodology g q).content
        (generate_key_findings g a srcs).content
        (generate_implications g a).content
        (generate_conclusion g q a).content
        srcs2 now := by
  refine ⟨fun h => ?_, fun h => ?_, fun h => ?_, fun h => ?_, fun h => ?_,
    fun g2 hg => ?_, fun g2 hg => ?_, fun g2 hg => ?_, fun g2 hg => ?_, fun g2 hg => ?_,
    compile_tasks_template g q a q2 srcs srcs2 now⟩
  · simp [generate_executive_summary, safe_invoke, h]
  · simp [generate_key_findings, safe_invoke, h]
  · simp [generate_methodology, safe_invoke, h]
  · simp [generate_implications, safe_invoke, h]
  · simp [generate_conclusion, safe_invoke, h]
  · simp [generate_executive_summary, safe_invoke, hg]
  · simp [generate_key_findings, safe_invoke, hg]
  · simp [generate_methodology, safe_invoke, hg]
  · simp [generate_implications, safe_invoke, hg]
  · simp [generate_conclusion, safe_invoke, hg]

/-- Claim C6, witness: with every inference call failing, the methodology task
returns its fixed fallback, the executive-summary task returns its fallback,
and the compiled report is the template carrying those contents. -/
theorem C6_witness :
    generate_methodology gFailAll "q" = ⟨"Research Methodology", methodologyFallback, 3⟩ ∧
    generate_executive_summary gFailAll "q" "a" =
      ⟨"Executive Summary", executiveSummaryFallback "a", 1⟩ ∧
    compileFromGathered "q2" (sectionTasks gFailAll "q" "a" []) [] "T" =
      reportTemplate "q2"
        (generate_executive_summary gFailAll "q" "a").content
        (generate_methodology gFailAll "q").content
        (generate_key_findings gFailAll "a" []).content
        (generate_implications gFailAll "a").content
        (generate_conclusion gFailAll "q" "a").content
        [] "T" := by
  obtain ⟨hexec, _, hmeth, _, _, _, _, _, _, _, hcomp⟩ :=
    C6_section_fallbacks gFailAll "q" "a" "q2" [] [] "T" "boom"
  exact ⟨hmeth rfl, hexec rfl, hcomp⟩

/-! ## Claim C7 -/

/-- Claim C7, counterexample.  The claim states that every stage, on a raised
failure, emits an error ProgressEvent carrying the stage-prefixed message.
The report-drafting stage does not: its `except` branch
(`src/research_agent.py` lines 260-263) sets `RunState.error` and status
`error` but calls no `log_event` — the stage's log ends after its two
`started` events and contains no event with status `error`. -/
theorem C7_counterexample :
    (report_generator gFailAll (initialState "q")).state.status = "error" ∧
    (report_generator gFailAll (initialState "q")).state.error =
      some "Report generation failed: boom" ∧
    ((report_generator gFailAll (initialState "q")).events.map sig) =
      [("LangGraph", "generate_report", "started"), ("Gemini", "invoke", "started")] ∧
    (report_generator gFailAll (initialState "q")).events.all
      (fun ev => ev.status != "error") = true := by decide

/-- Claim C7, amended.  On a raised failure, the query-analysis, research and
content-analysis stages each set `RunState.error` and status `error` AND emit
an error ProgressEvent carrying the stage-prefixed message; the report-drafting
stage sets the state fields but emits no error event (see the counterexample). -/
theorem C7_amended_error_events (g : GeminiOracle) (t : TavilyOracle) (s : ResearchState)
    (e : String) :
    (g (queryAnalyzerPrompt s.query) = .error e →
      (query_analyzer g s).state.status = "error" ∧
      (query_analyzer g s).state.error = some ("Query analysis failed: " ++ e) ∧
      (⟨"LangGraph", "analyze_query", "error", "Query analysis failed: " ++ e⟩ : ProgressEvent) ∈
        (query_analyzer g s).events) ∧
    (t s.query 3 = .error e →
      (web_researcher t s).state.status = "error" ∧
      (web_researcher t s).state.error = some ("Web research failed: " ++ e) ∧
      (⟨"Tavily", "search", "error", "Web research failed: " ++ e⟩ : ProgressEvent) ∈
        (web_researcher t s).events) ∧
    (s.search_results ≠ [] →
      g (contentAnalyzerPrompt s.query (contentSummary s.search_results)) = .error e →
      (content_analyzer g s).state.status = "error" ∧
      (content_analyzer g s).state.error = some ("Content analysis failed: " ++ e) ∧
      (⟨"Gemini", "invoke", "error", "Content analysis failed: " ++ e⟩ : ProgressEvent) ∈
        (content_analyzer g s).events) := by
  refine ⟨fun h => ?_, fun h => ?_, fun hne h => ?_⟩
  · simp [query_analyzer, h]
  · refine ⟨?_, ?_, ?_⟩
    · simp only [web_researcher, wr_query_stable, h]
    · simp only [web_researcher, wr_query_stable, h]
    · simp only [web_researcher, wr_query_stable, h]
      simp
  · simp [content_analyzer, hne, h]

/-- Claim C7, witness for the amended theorem at concrete failing oracles and
a state with a nonempty query and one search result. -/
theorem C7_witness :
    ((query_analyzer gFailAll sWitness).state.status = "error" ∧
      (query_analyzer gFailAll sWitness).state.error = some "Query analysis failed: boom" ∧
      (⟨"LangGraph", "analyze_query", "error", "Query analysis failed: boom"⟩ : ProgressEvent) ∈
        (query_analyzer gFailAll sWitness).events) ∧
    ((web_researcher tFailBoom sWitness).state.status = "error" ∧
      (web_researcher tFailBoom sWitness).state.error = some "Web research failed: boom" ∧
      (⟨"Tavily", "search", "error", "Web research failed: boom"⟩ : ProgressEvent) ∈
        (web_researcher tFailBoom sWitness).events) ∧
    ((content_analyzer gFailAll sWitness).state.status = "error" ∧
      (content_analyzer gFailAll sWitness).state.error = some "Content analysis failed: boom" ∧
      (⟨"Gemini", "invoke", "error", "Content analysis failed: boom"⟩ : ProgressEvent) ∈
        (content_analyzer gFailAll sWitness).events) := by
  obtain ⟨h1, h2, h3⟩ := C7_amended_error_events gFailAll tFailBoom sWitness "boom"
  exact ⟨h1 rfl, h2 rfl, h3 (by decide) rfl⟩

/-! ## Claim C8 -/

/-- Claim C8: for every run (any query, any behaviour of the two external
capabilities) and every (component, action) pair, in the event log's append
order every terminal (`completed`/`error`) event is preceded by a `started`
event with the same pair, and at most one terminal event follows each
`started` event before the next `started` event with that pair.  `eventsOK`
checks exactly this (see its docstring): a terminal event is accepted only
when the nearest earlier same-pair event is a `started`. -/
theorem C8_event_lifecycle (q : String) (g : GeminiOracle) (t : TavilyOracle) :
    eventsOK (((runPipeline g t (initialState q)).events).map sig) = true := by
  obtain ⟨b1, h1⟩ := qa_sig_shape g (initialState q)
  obtain ⟨b2, h2⟩ := wr_sig_shape t (query_analyzer g (initialState q)).state
  obtain ⟨c3, h3⟩ := ca_sig_shape g
    (web_researcher t (query_analyzer g (initialState q)).state).state
  obtain ⟨b4, h4⟩ := rg_sig_shape g
    (content_analyzer g (web_researcher t (query_analyzer g (initialState q)).state).state).state
  have hsplit : ((runPipeline g t (initialState q)).events).map sig =
      qaSig b1 ++ wrSig b2 ++ caSig c3 ++ rgSig b4 := by
    simp only [runPipeline, List.map_append, h1, h2, h3, h4]
  rw [hsplit]
  exact eventsOK_append_shapes b1 b2 b4 c3

/-! ## Claim C9 -/

/-- Claim C9: the research stage asks the search capability for up to three
results (`max_results=3` in the single issued call) but retains only the first
two returned: on a successful search, `RunState.search_results` is the
processed prefix of length at most two, and the stage ends with status
`research_completed`. -/
theorem C9_search_truncation (t : TavilyOracle) (s : ResearchState) (resp : SearchResponse)
    (h : t s.query 3 = .ok resp) :
    (web_researcher t s).calls = [ExtCall.tavilySearch s.query 3] ∧
    (web_researcher t s).state.search_results =
      ((resp.results.getD []).take 2).map processResult ∧
    (web_researcher t s).state.search_results.length ≤ 2 ∧
    (web_researcher t s).state.status = "research_completed" := by
  have hres : (web_researcher t s).state.search_results =
      ((resp.results.getD []).take 2).map processResult := by
    simp only [web_researcher, wr_query_stable, h]
  refine ⟨wr_calls t s, hres, ?_, ?_⟩
  · rw [hres]
    simp only [List.length_map, List.length_take]
    omega
  · simp only [web_researcher, wr_query_stable, h]

/-- Claim C9, witness: a search returning three raw results is truncated to the
first two processed documents. -/
theorem C9_witness :
    (web_researcher tOkThree (initialState "q")).calls = [ExtCall.tavilySearch "q" 3] ∧
    (web_researcher tOkThree (initialState "q")).state.search_results =
      ((((⟨some [⟨some "R1", some "u1", some "c1", some "s1"⟩,
           ⟨some "R2", some "u2", some "c2", none⟩,
           ⟨some "R3", some "u3", some "c3", some "s3"⟩]⟩ : SearchResponse)).results.getD
        []).take 2).map processResult ∧
    (web_researcher tOkThree (initialState "q")).state.search_results.length ≤ 2 ∧
    (web_researcher tOkThree (initialState "q")).state.status = "research_completed" :=
  C9_search_truncation tOkThree (initialState "q")
    ⟨some [⟨some "R1", some "u1", some "c1", some "s1"⟩,
      ⟨some "R2", some "u2", some "c2", none⟩,
      ⟨some "R3", some "u3", some "c3", some "s3"⟩]⟩ rfl

/-! ## Claim C10 -/

/-- Claim C10: the report-drafting stage checks no precondition — for every
state (including an empty analysis and an empty search-result list) it issues
exactly one inference call; on success it sets status `report_generated` and
stores the response as the report, leaving `error` untouched; it sets an error
only when the external call itself fails. -/
theorem C10_report_stage_no_precondition (g : GeminiOracle) (s : ResearchState) :
    (report_generator g s).calls =
      [ExtCall.geminiInvoke (reportGeneratorPrompt s.query s.analysis (srcBlock s.search_results))] ∧
    (report_generator g s).state =
      (match g (reportGeneratorPrompt s.query s.analysis (srcBlock s.search_results)) with
       | .ok content => { s with report := content, status := "report_generated" }
       | .error e => { s with error := some ("Report generation failed: " ++ e),
                              status := "error" }) := by
  cases h : g (reportGeneratorPrompt s.query s.analysis (srcBlock s.search_results)) <;>
    simp [report_generator, h]
